import Mathlib

/-!
# Formal model of the DiabetesAI advisor's response-segmentation layer

This file embeds, as Lean definitions, the string-manipulation helpers and
per-category flows of `src/main.go`:

* `splitIntoSections`  — positional section splitter (Go `splitIntoSections`);
* `extractSection`     — keyword-anchored field extractor (Go `extractSection`);
* `parseMealSections`  — the four meal fields (Go `parseMealSections`);
* `containsKeywords`   — keyword search helper (Go `containsKeywords`);
* the five flows (`bloodSugarFlow`, `mealPlanFlow`, `symptomFlow`,
  `exerciseFlow`, `medicationFlow`), each modelled as a pure function of the
  request plus the single result of the external text-generation call
  (`Except String String`: an error message or the returned text).

Go strings are modelled as Lean `String`s; the byte-level operations of the
Go code (`strings.Index`, slicing, `strings.ToUpper`) act here on the
character list of the string, which coincides with the Go behaviour on the
ASCII data the program manipulates.
-/

namespace DiabeticAI

/-- The fixed fallback string of `extractSection` in `src/main.go`. -/
def sentinel : String := "No information available."

/-- Character-list model of Go `strings.ToUpper`. -/
def upperL (l : List Char) : List Char := l.map Char.toUpper

/-- Character-list model of Go `strings.ToLower`. -/
def lowerL (l : List Char) : List Char := l.map Char.toLower

/-- Character-list model of Go `strings.Index`: index of the first
occurrence of `pat` in the haystack, `none` when absent (Go returns `-1`). -/
def findSub (pat : List Char) : List Char → Option Nat
  | [] => if pat.isPrefixOf ([] : List Char) then some 0 else none
  | c :: rest =>
    if pat.isPrefixOf (c :: rest) then some 0
    else (findSub pat rest).map (· + 1)

/-- Character-list model of Go `strings.TrimSpace`. -/
def trimSpaceL (l : List Char) : List Char :=
  ((l.dropWhile Char.isWhitespace).reverse.dropWhile Char.isWhitespace).reverse

/-- The cutset test of Go `strings.Trim(content, ":-")`. -/
def isCutChar (c : Char) : Bool := c = ':' || c = '-'

/-- Character-list model of Go `strings.Trim(content, ":-")`. -/
def trimCutL (l : List Char) : List Char :=
  ((l.dropWhile isCutChar).reverse.dropWhile isCutChar).reverse

/-- The fixed label set scanned by `extractSection` in `src/main.go`. -/
def mealLabels : List String := ["BREAKFAST", "LUNCH", "DINNER", "SNACKS"]

/-- `mealLabels` as character lists. -/
def mealLabelsL : List (List Char) := mealLabels.map String.toList

/-- The truncation loop of Go `extractSection` (lines 443–451): labels are
scanned in the fixed order of `mealLabels`; the queried label is skipped
(`continue`); at the FIRST label in that order that occurs in the content,
the content is cut at that label's first occurrence and the loop breaks. -/
def truncLoop (keywordUpper : List Char) : List (List Char) → List Char → List Char
  | [], content => content
  | next :: rest, content =>
    if next = keywordUpper then truncLoop keywordUpper rest content
    else
      match findSub next (upperL content) with
      | some idx => content.take idx
      | none => truncLoop keywordUpper rest content

/-- Character-list body of Go `extractSection` (lines 426–459). -/
def extractSectionL (text keyword : List Char) : List Char :=
  if text = [] then sentinel.toList
  else
    match findSub (upperL keyword) (upperL text) with
    | none => sentinel.toList
    | some start =>
      let content :=
        truncLoop (upperL keyword) mealLabelsL
          (text.drop (start + (upperL keyword).length))
      let clean := trimSpaceL (trimCutL content)
      if clean = [] then sentinel.toList else clean

/-- Go `extractSection`: extract the content following `keyword` in `text`. -/
def extractSection (text keyword : String) : String :=
  ⟨extractSectionL text.toList keyword.toList⟩

/-- Go `parseMealSections` (lines 416–423), as the quadruple
(breakfast, lunch, dinner, snacks). -/
def parseMealSections (text : String) : String × String × String × String :=
  (extractSection text "BREAKFAST", extractSection text "LUNCH",
   extractSection text "DINNER", extractSection text "SNACKS")

/-- Go `containsKeywords` (lines 462–479): case-insensitive substring search,
skipping empty keywords, false on empty text or empty keyword list. -/
def containsKeywords (text : String) (keywords : List String) : Bool :=
  if text = "" ∨ keywords = [] then false
  else
    keywords.any fun keyword =>
      if keyword = "" then false
      else (findSub (lowerL keyword.toList) (lowerL text.toList)).isSome

/-- The body of Go `splitIntoSections` after the (panicking) `make`: the
splitter proper, for a non-negative section count `n`. Slot `i` is the `i`-th
chunk of `text` split on `"\n\n"`, trimmed, when it exists, else `""`. -/
def splitIntoSectionsCore (text : String) (n : Nat) : List String :=
  if text = "" ∨ n = 0 then List.replicate n ""
  else
    (List.range n).map fun i =>
      if i < (text.splitOn "\n\n").length
      then ((text.splitOn "\n\n").getD i "").trim
      else ""

/-- Go `splitIntoSections` (lines 400–413). Its first statement is
`make([]string, numSections)`, which the Go runtime panics on when
`numSections` is negative (the `numSections <= 0` guard comes only after);
the panic is modelled as `none`. -/
def splitIntoSections (text : String) (numSections : Int) : Option (List String) :=
  if numSections < 0 then none
  else some (splitIntoSectionsCore text numSections.toNat)

/-- Minimum of a list of naturals, `none` on the empty list. -/
def minList? : List Nat → Option Nat
  | [] => none
  | x :: xs =>
    match minList? xs with
    | none => some x
    | some m => some (min x m)

/-- Truncation as the spec's claim words it: cut the content at the earliest
occurrence (smallest index) of any label of the fixed set other than the
queried one; leave it whole when no other label occurs. Written from the
claim's wording, to be compared with `truncLoop` (the code's behaviour). -/
def earliestCut (keywordUpper content : List Char) : List Char :=
  match minList? (mealLabelsL.filterMap fun lab =>
      if lab = keywordUpper then none else findSub lab (upperL content)) with
  | some idx => content.take idx
  | none => content

/-- The extractor as the spec's claim words it: identical to
`extractSectionL` except that the truncation point is the earliest
other-label occurrence (`earliestCut`). -/
def extractSectionEarliestL (text keyword : List Char) : List Char :=
  if text = [] then sentinel.toList
  else
    match findSub (upperL keyword) (upperL text) with
    | none => sentinel.toList
    | some start =>
      let content :=
        earliestCut (upperL keyword) (text.drop (start + (upperL keyword).length))
      let clean := trimSpaceL (trimCutL content)
      if clean = [] then sentinel.toList else clean

/-- String version of `extractSectionEarliestL`. -/
def extractSectionEarliest (text keyword : String) : String :=
  ⟨extractSectionEarliestL text.toList keyword.toList⟩

/-- Truncation as the code actually behaves, reformulated: among the labels
of the fixed set taken in their fixed scan order, the first one other than
the queried label that occurs anywhere in the content decides the cut, at
that label's first occurrence. -/
def scanOrderCut (keywordUpper content : List Char) : List Char :=
  match mealLabelsL.findSome? (fun lab =>
      if lab = keywordUpper then none else findSub lab (upperL content)) with
  | some idx => content.take idx
  | none => content

/-- The extractor with the truncation step written as `scanOrderCut`. -/
def extractSectionScanL (text keyword : List Char) : List Char :=
  if text = [] then sentinel.toList
  else
    match findSub (upperL keyword) (upperL text) with
    | none => sentinel.toList
    | some start =>
      let content :=
        scanOrderCut (upperL keyword) (text.drop (start + (upperL keyword).length))
      let clean := trimSpaceL (trimCutL content)
      if clean = [] then sentinel.toList else clean

/-- String version of `extractSectionScanL`. -/
def extractSectionScan (text keyword : String) : String :=
  ⟨extractSectionScanL text.toList keyword.toList⟩

/-- Request of the blood-sugar flow (`BloodSugarInput` in `src/main.go`).
The Go `float64` reading is modelled as a rational number: the flow only
compares it with the integer thresholds 70, 180 and 250, and those
comparisons agree with the IEEE-754 comparisons on the represented values. -/
structure BloodSugarInput where
  Reading : ℚ
  MealTiming : String
  MealType : String

/-- Response of the blood-sugar flow (`BloodSugarOutput` in `src/main.go`). -/
structure BloodSugarOutput where
  Status : String
  Interpretation : String
  Recommendation : String
  deriving DecidableEq

/-- The status classification of `bloodSugarFlow` (lines 153–161): fixed
numeric thresholds applied to the input reading. -/
def bloodSugarStatus (reading : ℚ) : String :=
  if reading < 70 then "low"
  else if reading > 250 then "critical"
  else if reading > 180 then "high"
  else "normal"

/-- Go `bloodSugarFlow` (lines 127–171), as a function of the request and of
the one result of the external `generate` call (`Except.error e` models a
failed call, `Except.ok text` models the returned text). -/
def bloodSugarFlow (input : BloodSugarInput) (gen : Except String String) :
    Except String BloodSugarOutput :=
  match gen with
  | .error e => .error ("failed to interpret blood sugar: " ++ e)
  | .ok text =>
    let parts := splitIntoSectionsCore text 3
    .ok ⟨bloodSugarStatus input.Reading, parts.getD 0 "", parts.getD 1 ""⟩

/-- Request of the meal-plan flow (`MealPlanInput` in `src/main.go`). -/
structure MealPlanInput where
  DietType : String
  Allergies : String
  CalorieLimit : ℚ

/-- Response of the meal-plan flow (`MealPlanOutput` in `src/main.go`). -/
structure MealPlanOutput where
  Breakfast : String
  Lunch : String
  Dinner : String
  Snacks : String
  deriving DecidableEq

/-- Go `mealPlanFlow` (lines 174–217). -/
def mealPlanFlow (input : MealPlanInput) (gen : Except String String) :
    Except String MealPlanOutput :=
  match gen with
  | .error e => .error ("failed to generate meal plan: " ++ e)
  | .ok text =>
    let s := parseMealSections text
    .ok ⟨s.1, s.2.1, s.2.2.1, s.2.2.2⟩

/-- Request of the symptom flow (`SymptomInput` in `src/main.go`). -/
structure SymptomInput where
  Symptoms : String
  Duration : String
  CurrentMeds : String

/-- Response of the symptom flow (`SymptomOutput` in `src/main.go`). -/
structure SymptomOutput where
  Urgency : String
  Assessment : String
  NextSteps : String
  deriving DecidableEq

/-- The emergency keyword set of `symptomFlow` (line 248). -/
def emergencyKeywords : List String := ["emergency", "911", "immediate", "urgent care"]

/-- The urgent keyword set of `symptomFlow` (line 250). -/
def urgentKeywords : List String := ["urgent", "contact doctor", "today"]

/-- The urgency classification of `symptomFlow` (lines 246–252). -/
def classifyUrgency (text : String) : String :=
  if containsKeywords text emergencyKeywords then "emergency"
  else if containsKeywords text urgentKeywords then "urgent"
  else "routine"

/-- Go `symptomFlow` (lines 220–261). -/
def symptomFlow (input : SymptomInput) (gen : Except String String) :
    Except String SymptomOutput :=
  match gen with
  | .error e => .error ("failed to check symptoms: " ++ e)
  | .ok text =>
    let parts := splitIntoSectionsCore text 3
    .ok ⟨classifyUrgency text, parts.getD 0 "", parts.getD 1 ""⟩

/-- Request of the exercise flow (`ExerciseInput` in `src/main.go`). -/
structure ExerciseInput where
  FitnessLevel : String
  TimeAvailable : Int
  CurrentBG : ℚ
  PreferredType : String

/-- Response of the exercise flow (`ExerciseOutput` in `src/main.go`). -/
structure ExerciseOutput where
  SafetyCheck : String
  Recommendation : String
  Duration : String
  Precautions : String
  deriving DecidableEq

/-- Go `exerciseFlow` (lines 264–303). -/
def exerciseFlow (input : ExerciseInput) (gen : Except String String) :
    Except String ExerciseOutput :=
  match gen with
  | .error e => .error ("failed to generate exercise plan: " ++ e)
  | .ok text =>
    let parts := splitIntoSectionsCore text 4
    .ok ⟨parts.getD 0 "", parts.getD 1 "", parts.getD 2 "", parts.getD 3 ""⟩

/-- Request of the medication flow (`MedicationInput` in `src/main.go`). -/
structure MedicationInput where
  MedicationName : String
  Purpose : String

/-- Response of the medication flow (`MedicationOutput` in `src/main.go`). -/
structure MedicationOutput where
  Information : String
  Reminder : String
  Disclaimer : String
  deriving DecidableEq

/-- The constant reminder string of `medicationFlow` (line 329). -/
def medicationReminder : String :=
  "Set reminders on your phone for medication times. Never skip doses without consulting your doctor."

/-- The constant disclaimer string of `medicationFlow` (line 325). -/
def medicationDisclaimer : String :=
  "⚠️ IMPORTANT: This is educational information only. Always consult your healthcare provider before starting, stopping, or changing any medication. This AI advisor cannot replace professional medical advice."

/-- Go `medicationFlow` (lines 306–332). -/
def medicationFlow (input : MedicationInput) (gen : Except String String) :
    Except String MedicationOutput :=
  match gen with
  | .error e => .error ("failed to get medication info: " ++ e)
  | .ok text => .ok ⟨text, medicationReminder, medicationDisclaimer⟩

/-! ## Helper lemmas -/

/-- The core splitter always returns exactly `n` slots; in particular the
Go indexing `parts[0]`, `parts[1]`, … inside the flows is in bounds. -/
theorem splitIntoSectionsCore_length (text : String) (n : Nat) :
    (splitIntoSectionsCore text n).length = n := by
  unfold splitIntoSectionsCore
  split
  · simp
  · simp

/-- When `findSub pat hay = some i`, the pattern starts at position `i`:
it is a prefix of `hay.drop i`. -/
theorem findSub_prefix_drop (pat : List Char) :
    ∀ hay i, findSub pat hay = some i → pat <+: hay.drop i := by
  intro hay
  induction hay with
  | nil =>
    intro i h
    unfold findSub at h
    split at h
    next hp =>
      cases h
      simpa using List.isPrefixOf_iff_prefix.mp hp
    next => cases h
  | cons c rest ih =>
    intro i h
    unfold findSub at h
    split at h
    next hp =>
      cases h
      simpa using List.isPrefixOf_iff_prefix.mp hp
    next =>
      cases hr : findSub pat rest with
      | none => rw [hr] at h; cases h
      | some j =>
        rw [hr] at h
        simp only [Option.map_some'] at h
        cases h
        simpa using ih j hr

/-- When `findSub pat hay` finds an occurrence, `pat` is an infix of `hay`. -/
theorem infix_of_findSub_isSome (pat hay : List Char)
    (h : (findSub pat hay).isSome = true) : pat <:+: hay := by
  obtain ⟨i, hi⟩ := Option.isSome_iff_exists.mp h
  obtain ⟨t, ht⟩ := findSub_prefix_drop pat hay i hi
  exact ⟨hay.take i, t, by rw [List.append_assoc, ht, List.take_append_drop]⟩

/-- The truncation loop of the code equals the reformulated scan-order cut:
the first label in the fixed order (other than the queried one) that occurs
anywhere in the content decides the cut. -/
theorem truncLoop_eq_scanOrder (kw : List Char) (ls : List (List Char)) (c : List Char) :
    truncLoop kw ls c =
      match ls.findSome? (fun lab =>
          if lab = kw then none else findSub lab (upperL c)) with
      | some idx => c.take idx
      | none => c := by
  induction ls with
  | nil => rfl
  | cons l t ih =>
    rw [List.findSome?_cons]
    by_cases h : l = kw
    · subst h
      simp [truncLoop, ih]
    · simp only [truncLoop, if_neg h]
      cases hf : findSub l (upperL c) with
      | none => simpa [hf] using ih
      | some i => simp [hf]

/-- The list-level extractor never returns the empty list: either the
sentinel or the non-empty cleaned content. -/
theorem extractSectionL_ne_nil (text keyword : List Char) :
    extractSectionL text keyword ≠ [] := by
  unfold extractSectionL
  split
  · decide
  · split
    · decide
    · dsimp only
      split
      · decide
      · assumption

/-! ## Theorems about the claims -/

/-- C7: on the text "BREAKFAST: oats\n\nLUNCH: salad\n\nDINNER: soup" the
extractor returns "oats" for BREAKFAST, "salad" for LUNCH (truncated before
DINNER), "soup" for DINNER, and the sentinel for the absent SNACKS; the same
values appear in the `parseMealSections` quadruple. -/
theorem extractSection_mealplan_example :
    extractSection "BREAKFAST: oats\n\nLUNCH: salad\n\nDINNER: soup" "BREAKFAST" = "oats" ∧
    extractSection "BREAKFAST: oats\n\nLUNCH: salad\n\nDINNER: soup" "LUNCH" = "salad" ∧
    extractSection "BREAKFAST: oats\n\nLUNCH: salad\n\nDINNER: soup" "DINNER" = "soup" ∧
    extractSection "BREAKFAST: oats\n\nLUNCH: salad\n\nDINNER: soup" "SNACKS" =
      "No information available." ∧
    parseMealSections "BREAKFAST: oats\n\nLUNCH: salad\n\nDINNER: soup" =
      ("oats", "salad", "soup", "No information available.") := by
  refine ⟨by decide, by decide, by decide, by decide, ?_⟩
  decide

/-- C2 (code bug): for a negative count the Go code panics — its first
statement `make([]string, numSections)` precedes the `numSections <= 0`
guard — modelled as `none`; only the count 0 yields the promised zero-length
result without panic. -/
theorem splitIntoSections_negative_count_panics :
    splitIntoSections "x" (-1) = none ∧
    splitIntoSections "x" 0 = some [] ∧
    splitIntoSections "" 0 = some [] := by
  refine ⟨rfl, ?_, ?_⟩ <;> decide

/-- C10: on a successful backend call the medication flow copies the
returned text verbatim into `Information` (no segmentation), and fills
`Reminder` and `Disclaimer` with fixed constant strings that depend neither
on the request nor on the text. -/
theorem medicationFlow_constant_fields (input other : MedicationInput)
    (text otherText : String) :
    medicationFlow input (Except.ok text) =
      Except.ok ⟨text, medicationReminder, medicationDisclaimer⟩ ∧
    (medicationFlow input (Except.ok text)).map MedicationOutput.Reminder =
      (medicationFlow other (Except.ok otherText)).map MedicationOutput.Reminder ∧
    (medicationFlow input (Except.ok text)).map MedicationOutput.Disclaimer =
      (medicationFlow other (Except.ok otherText)).map MedicationOutput.Disclaimer := by
  exact ⟨rfl, rfl, rfl⟩

/-- C1 (counterexample): the truncation point is NOT the earliest other-label
occurrence. On "LUNCH a DINNER b BREAKFAST c" with query LUNCH, DINNER occurs
before BREAKFAST in the remaining substring, yet the code cuts at BREAKFAST
(the first label in its fixed scan order that occurs) and keeps "a DINNER b",
while the claim's earliest-occurrence rule would keep only "a". -/
theorem extractSection_not_earliest_cut :
    extractSection "LUNCH a DINNER b BREAKFAST c" "LUNCH" = "a DINNER b" ∧
    extractSectionEarliest "LUNCH a DINNER b BREAKFAST c" "LUNCH" = "a" ∧
    extractSection "LUNCH a DINNER b BREAKFAST c" "LUNCH" ≠
      extractSectionEarliest "LUNCH a DINNER b BREAKFAST c" "LUNCH" := by
  exact ⟨by decide, by decide, by decide⟩

/-- C1 (amended): for every text and label, the extractor behaves as
`extractSectionScan`: it truncates at the first occurrence of the first
label — in the fixed scan order BREAKFAST, LUNCH, DINNER, SNACKS, the
queried label skipped — that occurs in the substring after the label. -/
theorem extractSection_scan_order_eq (text keyword : String) :
    extractSection text keyword = extractSectionScan text keyword := by
  unfold extractSection extractSectionScan extractSectionL extractSectionScanL scanOrderCut
  simp only [truncLoop_eq_scanOrder]

/-- C3: the blood-sugar status is a pure function of the numeric reading
with fixed thresholds (below 70 low, above 250 critical, above 180 high,
otherwise normal); the flow's `Status` field is exactly this function of the
input reading whatever text the model returned, and the four sample readings
classify as the spec states. -/
theorem bloodSugarStatus_thresholds (input : BloodSugarInput) (text : String) (r : ℚ) :
    (r < 70 → bloodSugarStatus r = "low") ∧
    (r > 250 → bloodSugarStatus r = "critical") ∧
    (180 < r → r ≤ 250 → bloodSugarStatus r = "high") ∧
    (70 ≤ r → r ≤ 180 → bloodSugarStatus r = "normal") ∧
    (∃ itp rcm, bloodSugarFlow input (Except.ok text) =
      Except.ok ⟨bloodSugarStatus input.Reading, itp, rcm⟩) ∧
    bloodSugarStatus 50 = "low" ∧ bloodSugarStatus 300 = "critical" ∧
    bloodSugarStatus 200 = "high" ∧ bloodSugarStatus 145 = "normal" := by
  refine ⟨?_, ?_, ?_, ?_, ⟨_, _, rfl⟩, by decide, by decide, by decide, by decide⟩ <;>
    · intros
      unfold bloodSugarStatus
      split_ifs <;> first | rfl | linarith

/-- C3 witness: the thresholds applied at readings 50 and 300. -/
theorem bloodSugarStatus_thresholds_witness :
    bloodSugarStatus 50 = "low" ∧ bloodSugarStatus 300 = "critical" :=
  ⟨(bloodSugarStatus_thresholds ⟨145, "", ""⟩ "" 50).1 (by decide),
   (bloodSugarStatus_thresholds ⟨145, "", ""⟩ "" 300).2.1 (by decide)⟩

/-- C4: the urgency classifier checks the emergency keyword set before the
urgent one and defaults to "routine"; matching is case-insensitive substring
search; when keywords of both sets occur the result is "emergency". -/
theorem classifyUrgency_priority (text : String) :
    (containsKeywords text emergencyKeywords = true →
      classifyUrgency text = "emergency") ∧
    (containsKeywords text emergencyKeywords = false →
      containsKeywords text urgentKeywords = true →
      classifyUrgency text = "urgent") ∧
    (containsKeywords text emergencyKeywords = false →
      containsKeywords text urgentKeywords = false →
      classifyUrgency text = "routine") ∧
    classifyUrgency "Please go to the ER, this is an EMERGENCY." = "emergency" ∧
    classifyUrgency "You should contact your doctor today." = "urgent" ∧
    classifyUrgency "Keep monitoring." = "routine" ∧
    classifyUrgency "This is an emergency; also urgent: contact doctor today." =
      "emergency" := by
  refine ⟨fun h1 => ?_, fun h1 h2 => ?_, fun h1 h2 => ?_,
    by decide, by decide, by decide, by decide⟩ <;>
    simp [classifyUrgency, h1]
  · simp [h2]
  · simp [h2]

/-- C4 witness: the priority clauses applied to concrete texts. -/
theorem classifyUrgency_priority_witness :
    classifyUrgency "call 911 now" = "emergency" ∧
    classifyUrgency "see your doctor today" = "urgent" ∧
    classifyUrgency "nothing to report" = "routine" :=
  ⟨(classifyUrgency_priority "call 911 now").1 (by decide),
   (classifyUrgency_priority "see your doctor today").2.1 (by decide) (by decide),
   (classifyUrgency_priority "nothing to report").2.2.1 (by decide) (by decide)⟩

/-- C5: for non-empty text and a count of at least 1, the positional splitter
returns exactly `n` slots; slot `i` is the `i`-th chunk of the text split on
two consecutive newlines, trimmed, when that chunk exists, and the empty
string otherwise. -/
theorem splitIntoSections_pads (text : String) (n : Int)
    (ht : text ≠ "") (hn : 1 ≤ n) :
    ∃ l : List String, splitIntoSections text n = some l ∧
      l.length = n.toNat ∧
      ∀ i : Nat, i < n.toNat →
        l.getD i "" =
          if i < (text.splitOn "\n\n").length
          then ((text.splitOn "\n\n").getD i "").trim
          else "" := by
  refine ⟨splitIntoSectionsCore text n.toNat, ?_,
    splitIntoSectionsCore_length _ _, ?_⟩
  · unfold splitIntoSections
    rw [if_neg (by omega)]
  · intro i hi
    unfold splitIntoSectionsCore
    rw [if_neg (by push_neg; exact ⟨ht, by omega⟩)]
    simp [List.getD_eq_getElem?_getD, List.getElem?_map, List.getElem?_range, hi]

/-- C5 witness: the splitter applied to "a\n\nb" with target count 3. -/
theorem splitIntoSections_pads_witness :
    ∃ l : List String, splitIntoSections "a\n\nb" 3 = some l ∧
      l.length = (3 : Int).toNat ∧
      ∀ i : Nat, i < (3 : Int).toNat →
        l.getD i "" =
          if i < ("a\n\nb".splitOn "\n\n").length
          then (("a\n\nb".splitOn "\n\n").getD i "").trim
          else "" :=
  splitIntoSections_pads "a\n\nb" 3 (by decide) (by decide)

/-- C6: the extractor returns the sentinel on empty text, returns the
sentinel when the label does not occur case-insensitively in the text,
depends on the label only through its uppercased characters (so matching is
case-insensitive), and returns the sentinel when the content is empty after
stripping colons, hyphens and whitespace — never an error. -/
theorem extractSection_sentinel_cases (text keyword keyword2 : String) :
    extractSection "" keyword = sentinel ∧
    (¬ List.IsInfix (upperL keyword.toList) (upperL text.toList) →
      extractSection text keyword = sentinel) ∧
    (upperL keyword.toList = upperL keyword2.toList →
      extractSection text keyword = extractSection text keyword2) ∧
    extractSection "lunch:-" "LUNCH" = sentinel := by
  refine ⟨rfl, fun hni => ?_, fun hup => ?_, by decide⟩
  · unfold extractSection extractSectionL
    by_cases ht : text.toList = []
    · rw [if_pos ht]
      rfl
    · rw [if_neg ht]
      cases hf : findSub (upperL keyword.toList) (upperL text.toList) with
      | none => rfl
      | some i =>
        exact absurd (infix_of_findSub_isSome _ _ (by rw [hf]; rfl)) hni
  · unfold extractSection extractSectionL
    rw [hup]

/-- C6 witness: sentinel on an absent label, and case-insensitivity of the
label at a concrete text. -/
theorem extractSection_sentinel_cases_witness :
    extractSection "no meals here" "LUNCH" = sentinel ∧
    extractSection "LUNCH: soup" "lunch" = extractSection "LUNCH: soup" "LUNCH" :=
  ⟨(extractSection_sentinel_cases "no meals here" "LUNCH" "LUNCH").2.1 (by decide),
   (extractSection_sentinel_cases "LUNCH: soup" "lunch" "LUNCH").2.2.1 (by decide)⟩

/-- C8: each of the five flows fails exactly when the single external
text-generation call fails, wrapping the backend error with a fixed message
naming the advisory category (the five messages are pairwise distinct), and
on any returned text — the empty text included — the segmentation and
classification post-processing always produces a result. -/
theorem flows_error_propagation
    (bi : BloodSugarInput) (mi : MealPlanInput) (si : SymptomInput)
    (ei : ExerciseInput) (di : MedicationInput) (e text : String) :
    bloodSugarFlow bi (Except.error e) =
      Except.error ("failed to interpret blood sugar: " ++ e) ∧
    mealPlanFlow mi (Except.error e) =
      Except.error ("failed to generate meal plan: " ++ e) ∧
    symptomFlow si (Except.error e) =
      Except.error ("failed to check symptoms: " ++ e) ∧
    exerciseFlow ei (Except.error e) =
      Except.error ("failed to generate exercise plan: " ++ e) ∧
    medicationFlow di (Except.error e) =
      Except.error ("failed to get medication info: " ++ e) ∧
    (∃ o, bloodSugarFlow bi (Except.ok text) = Except.ok o) ∧
    (∃ o, mealPlanFlow mi (Except.ok text) = Except.ok o) ∧
    (∃ o, symptomFlow si (Except.ok text) = Except.ok o) ∧
    (∃ o, exerciseFlow ei (Except.ok text) = Except.ok o) ∧
    (∃ o, medicationFlow di (Except.ok text) = Except.ok o) ∧
    (["failed to interpret blood sugar: ", "failed to generate meal plan: ",
      "failed to check symptoms: ", "failed to generate exercise plan: ",
      "failed to get medication info: "] : List String).Nodup := by
  exact ⟨rfl, rfl, rfl, rfl, rfl, ⟨_, rfl⟩, ⟨_, rfl⟩, ⟨_, rfl⟩, ⟨_, rfl⟩,
    ⟨_, rfl⟩, by decide⟩

/-- C9: for every text and label the extractor never returns the empty
string: its result is the (non-empty) sentinel or non-empty content. -/
theorem extractSection_ne_empty (text keyword : String) :
    extractSection text keyword ≠ "" := by
  intro h
  have hl : extractSectionL text.toList keyword.toList = [] := by
    simpa [extractSection, String.ext_iff] using h
  exact extractSectionL_ne_nil _ _ hl

end DiabeticAI
